import Mathlib

/-!
Verification development for the Foodle front-end (a React single-page
application). The definitions below are a shallow embedding of the pieces of
the source that the properties concern:

* the `Home` page state (QR handoff / live-location session): the component
  state hooks become a record `HomeState`, and each socket or fetch handler
  becomes a pure function on that record.  A `flushSync` block of setters is
  one function application, matching its render-atomic semantics.
* the `FilterSliders` component: the price-button `onClick` toggle and the
  `updateFilters` merge-and-log logic.
* `decodePolyline` from the `WalkingMap` component, modelled over lists of
  character codes with unbounded integers (the JavaScript numbers never leave
  the exact-integer range for polyline data, so no 32-bit wrap is modelled).
* `makeRecommendationRequest` from the `AIRecommendation` component.
* a small timed transition system for the QR session token and its
  10-minute expiry timer, using the usual event-loop idealisation that a due
  `setTimeout` callback runs before time passes its deadline.

Rational numbers stand in for JavaScript numbers; the values involved
(coordinates, ratings, distances) are exact in the source flows modelled here.
-/

namespace Foodle

/-! ## Coordinates and socket event payloads (Home component) -/

/-- A mobile-originated coordinate as stored in the `mobileLocation` state
hook: `{latitude, longitude, accuracy}`. -/
structure MobileCoord where
  latitude : ℚ
  longitude : ℚ
  accuracy : ℚ
deriving DecidableEq, Repr

/-- The optional `location` sub-object of a `desktop-location-update` socket
payload; each field may be absent (JavaScript `undefined`). -/
structure RawLocation where
  latitude : Option ℚ
  longitude : Option ℚ
  accuracy : Option ℚ
deriving DecidableEq, Repr

/-- A `desktop-location-update` socket payload: coordinates may live either
under `data.location` or at top level, and any field may be absent. -/
structure LocationEventData where
  location : Option RawLocation
  latitude : Option ℚ
  longitude : Option ℚ
  accuracy : Option ℚ
deriving DecidableEq, Repr

/-- The top-level branch of the coordinate extraction in the
`desktop-location-update` handler: `data.latitude !== undefined &&
data.longitude !== undefined`, with `accuracy = data.accuracy || 0`. -/
def extractTopLevel (data : LocationEventData) : Option MobileCoord :=
  match data.latitude, data.longitude with
  | some la, some ln => some ⟨la, ln, data.accuracy.getD 0⟩
  | _, _ => none

/-- Coordinate extraction from the `desktop-location-update` handler: first
`data.location.{latitude,longitude}` (with `accuracy || 0`), then the
top-level fields, else no coordinate. -/
def extractCoords (data : LocationEventData) : Option MobileCoord :=
  match data.location with
  | some loc =>
      match loc.latitude, loc.longitude with
      | some la, some ln => some ⟨la, ln, loc.accuracy.getD 0⟩
      | _, _ => extractTopLevel data
  | none => extractTopLevel data

/-! ## Home component state and handlers -/

/-- The `Home` component state hooks that the QR handoff flow reads and
writes.  Strings model the `useState<string>` hooks, with the empty string as
the falsy initial value. -/
structure HomeState where
  currentUserId : String
  userEmail : String
  userName : String
  qrCode : String
  qrToken : String
  hasUserInteracted : Bool
  forceHideQR : Bool
  processingLocationUpdate : Bool
  mobileLocation : Option MobileCoord
deriving DecidableEq, Repr

/-- The initial `Home` state: every hook starts empty, false or null. -/
def initialHomeState : HomeState where
  currentUserId := ""
  userEmail := ""
  userName := ""
  qrCode := ""
  qrToken := ""
  hasUserInteracted := false
  forceHideQR := false
  processingLocationUpdate := false
  mobileLocation := none

/-- The three render states of the `Home` page. -/
inductive ViewMode
  | loading
  | qrPrompt
  | chat
deriving DecidableEq, Repr

/-- The render conditional of `Home`: `!currentUserId` shows the loading
spinner, `qrCode && !hasUserInteracted && !forceHideQR` shows the QR prompt,
anything else shows the chat interface. -/
def viewMode (s : HomeState) : ViewMode :=
  if s.currentUserId = "" then ViewMode.loading
  else if s.qrCode ≠ "" ∧ s.hasUserInteracted = false ∧ s.forceHideQR = false then
    ViewMode.qrPrompt
  else ViewMode.chat

/-- The `flushSync` block shared by the `desktop-location-update` and
`hide-qr-code` socket handlers: one synchronous update that clears the QR
code and token and sets both hide flags. -/
def flushSyncHideQR (s : HomeState) : HomeState :=
  { s with qrCode := "", qrToken := "", hasUserInteracted := true, forceHideQR := true }

/-- The `desktop-location-update` socket handler.  It marks the processing
flag, applies the `flushSync` hide block, then tries to extract a coordinate:
on failure it returns early; on success it stores the coordinate and triggers
`findRestaurantsWithLocation` (the second component of the result). -/
def onDesktopLocationUpdate (s : HomeState) (data : LocationEventData) :
    HomeState × Option MobileCoord :=
  let s1 := { flushSyncHideQR s with processingLocationUpdate := true }
  match extractCoords data with
  | none => (s1, none)
  | some c => ({ s1 with mobileLocation := some c }, some c)

/-- The `hide-qr-code` socket handler: exactly the `flushSync` hide block. -/
def onHideQrCode (s : HomeState) : HomeState :=
  flushSyncHideQR s

/-- The synchronous prefix of `generateMobileQR` once its guards have passed:
clear any existing QR code and reset the interaction and force-hide flags
before the issuance request is sent. -/
def generateMobileQRStart (s : HomeState) : HomeState :=
  { s with qrCode := "", hasUserInteracted := false, forceHideQR := false }

/-- Outcome of the QR-token issuance request sent by `generateMobileQR`. -/
inductive QRIssueResult
  | success (qrImage tok : String)
  | failure
deriving DecidableEq, Repr

/-- The `generateMobileQR` flow as a function of the request outcome.  The
second component counts issuance requests sent (`/api/generate-location-qr`).
Guards: a pending location update or missing user data aborts before any
request.  On a 2xx response the code and token are stored when the response
carries a QR image; a non-2xx response throws and the catch clears both, as
does a network error.  No branch issues a second request. -/
def generateMobileQR (s : HomeState) (r : QRIssueResult) : HomeState × Nat :=
  if s.processingLocationUpdate = true then (s, 0)
  else if s.currentUserId = "" ∨ s.userEmail = "" ∨ s.userName = "" then (s, 0)
  else
    let s1 := generateMobileQRStart s
    match r with
    | QRIssueResult.success img tok =>
        if img ≠ "" then ({ s1 with qrCode := img, qrToken := tok }, 1)
        else (s1, 1)
    | QRIssueResult.failure => ({ s1 with qrCode := "", qrToken := "" }, 1)

/-- The profile fetch success path of `fetchUserProfile`: adopt the user
identity returned by the backend. -/
def fetchUserProfileSuccess (s : HomeState) (uid email name : String) : HomeState :=
  { s with currentUserId := uid, userEmail := email, userName := name }

/-- Folding a sequence of `desktop-location-update` events into the state,
ignoring the search triggers. -/
def applyLocationUpdates (s : HomeState) (events : List LocationEventData) : HomeState :=
  events.foldl (fun st d => (onDesktopLocationUpdate st d).1) s

/-- Modelled from the spec wording of the view-mode selector, for comparison
with the render conditional `viewMode` of the source: the QR prompt is shown
exactly when identity is resolved, a session token is present, the user has
not interacted and the hide flag is not set. -/
def viewModeTokenSpec (s : HomeState) : ViewMode :=
  if s.currentUserId = "" then ViewMode.loading
  else if s.qrToken ≠ "" ∧ s.hasUserInteracted = false ∧ s.forceHideQR = false then
    ViewMode.qrPrompt
  else ViewMode.chat

/-! ## FilterSliders: price toggle and filter updates -/

/-- The price button `onClick` logic of `FilterSliders`: toggle membership of
the clicked level, except that deselecting the only selected level keeps it;
adding a level appends it and sorts the array ascending
(`[...priceLevel, newPriceLevel].sort((a, b) => a - b)`). -/
def togglePriceLevel (priceLevel : List ℕ) (newPriceLevel : ℕ) : List ℕ :=
  if newPriceLevel ∈ priceLevel then
    if priceLevel.length > 1 then priceLevel.filter (fun p => p ≠ newPriceLevel)
    else [newPriceLevel]
  else
    (priceLevel ++ [newPriceLevel]).mergeSort (fun a b => a ≤ b)

/-- The `RestaurantFilters` record of `FilterSliders`.  The category union
type is modelled as a string. -/
structure RestaurantFilters where
  priceLevel : List ℕ
  category : String
  maxDistance : ℚ
  minRating : ℚ
  maxRating : ℚ
deriving DecidableEq, Repr

/-- A `Partial<RestaurantFilters>` argument to `updateFilters`: each field is
present or absent. -/
structure PartialFilters where
  priceLevel : Option (List ℕ) := none
  category : Option String := none
  maxDistance : Option ℚ := none
  minRating : Option ℚ := none
  maxRating : Option ℚ := none
deriving DecidableEq, Repr

/-- The spread merge `{ ...filters, ...newFilters }` in `updateFilters`. -/
def mergeFilters (filters : RestaurantFilters) (newFilters : PartialFilters) :
    RestaurantFilters where
  priceLevel := newFilters.priceLevel.getD filters.priceLevel
  category := newFilters.category.getD filters.category
  maxDistance := newFilters.maxDistance.getD filters.maxDistance
  minRating := newFilters.minRating.getD filters.minRating
  maxRating := newFilters.maxRating.getD filters.maxRating

/-- A value of one filter field, as it appears in a logged change record. -/
inductive FilterValue
  | price (levels : List ℕ)
  | category (c : String)
  | distance (d : ℚ)
  | rating (r : ℚ)
deriving DecidableEq, Repr

/-- One element of the `filterChangeDetails` array built by `updateFilters`:
`{ key, oldValue, newValue }`, the record later POSTed to
`/api/log-filter-change`.  The wall-clock timestamp field is not modelled. -/
structure FilterChangeDetail where
  key : String
  oldValue : FilterValue
  newValue : FilterValue
deriving DecidableEq, Repr

/-- The change records of `updateFilters`: one record per key present in
`newFilters`, with `oldValue` read from the pre-update state and `newValue`
from the argument.  `Object.keys` order is the field declaration order. -/
def filterChangeDetails (filters : RestaurantFilters) (newFilters : PartialFilters) :
    List FilterChangeDetail :=
  (match newFilters.priceLevel with
   | some v => [⟨"priceLevel", FilterValue.price filters.priceLevel, FilterValue.price v⟩]
   | none => []) ++
  (match newFilters.category with
   | some v => [⟨"category", FilterValue.category filters.category, FilterValue.category v⟩]
   | none => []) ++
  (match newFilters.maxDistance with
   | some v => [⟨"maxDistance", FilterValue.distance filters.maxDistance, FilterValue.distance v⟩]
   | none => []) ++
  (match newFilters.minRating with
   | some v => [⟨"minRating", FilterValue.rating filters.minRating, FilterValue.rating v⟩]
   | none => []) ++
  (match newFilters.maxRating with
   | some v => [⟨"maxRating", FilterValue.rating filters.maxRating, FilterValue.rating v⟩]
   | none => [])

/-- The `updateFilters` function of `FilterSliders`: merge the partial update
into the displayed state and emit the logged change records. -/
def updateFilters (filters : RestaurantFilters) (newFilters : PartialFilters) :
    RestaurantFilters × List FilterChangeDetail :=
  (mergeFilters filters newFilters, filterChangeDetails filters newFilters)

/-! ## decodePolyline (WalkingMap component)

The encoded polyline is modelled as the list of character codes of the input
string (`charCodeAt`).  JavaScript bitwise arithmetic is modelled with
unbounded integers: polyline chunk values for coordinates stay far below
`2 ^ 31`, so no 32-bit wrap occurs in the modelled domain.  `b & 0x1f` on a
possibly negative `b` is the two-complement mask, which is `Int.emod b 32`. -/

/-- The mask `b & 0x1f` applied to each byte of the polyline stream; on a
possibly negative two-complement value this is the nonnegative residue
`b % 32` (Euclidean remainder on integers). -/
def chunkValue (b : ℤ) : ℕ := (b % 32).toNat

/-- One `do ... while (b >= 0x20)` chunk loop of `decodePolyline`: read a
character, subtract 63, OR its low five bits into `result` at `shift`, and
continue while the continuation bit is set.  Reading past the end of the
string yields `NaN` in JavaScript, which contributes nothing and ends the
loop; here the empty list returns the accumulator. -/
def parseChunk : List ℕ → ℕ → ℕ → ℕ × List ℕ
  | [], _, result => (result, [])
  | c :: rest, shift, result =>
      let b : ℤ := (c : ℤ) - 63
      let result1 := result ||| (chunkValue b <<< shift)
      if 32 ≤ b then parseChunk rest (shift + 5) result1 else (result1, rest)

/-- The sign decoding `((result & 1) !== 0 ? ~(result >> 1) : (result >> 1))`
of `decodePolyline`; `~x` is `-x - 1`. -/
def zigzagDecode (result : ℕ) : ℤ :=
  if result &&& 1 ≠ 0 then -((result >>> 1 : ℕ) : ℤ) - 1 else ((result >>> 1 : ℕ) : ℤ)

theorem parseChunk_length_le (cs : List ℕ) (shift result : ℕ) :
    (parseChunk cs shift result).2.length ≤ cs.length := by
  induction cs generalizing shift result with
  | nil => simp [parseChunk]
  | cons c rest ih =>
      simp only [parseChunk]
      split
      · exact le_trans (ih _ _) (Nat.le_succ _)
      · exact Nat.le_succ _

theorem parseChunk_length_lt (c : ℕ) (rest : List ℕ) (shift result : ℕ) :
    (parseChunk (c :: rest) shift result).2.length < (c :: rest).length := by
  simp only [parseChunk]
  split
  · exact Nat.lt_succ_of_le (parseChunk_length_le _ _ _)
  · exact Nat.lt_succ_of_le le_rfl

/-- The outer `while (index < len)` loop of `decodePolyline`: parse a latitude
delta chunk and a longitude delta chunk, accumulate them, and emit the point
`(lat / 1e5, lng / 1e5)`. -/
def decodePolylineLoop : List ℕ → ℤ → ℤ → List (ℚ × ℚ)
  | [], _, _ => []
  | c :: rest, lat, lng =>
      let p1 := parseChunk (c :: rest) 0 0
      let lat1 := lat + zigzagDecode p1.1
      let p2 := parseChunk p1.2 0 0
      let lng1 := lng + zigzagDecode p2.1
      ((lat1 : ℚ) / 100000, (lng1 : ℚ) / 100000) :: decodePolylineLoop p2.2 lat1 lng1
termination_by cs _ _ => cs.length
decreasing_by
  exact Nat.lt_of_le_of_lt (parseChunk_length_le _ _ _) (parseChunk_length_lt c rest 0 0)

/-- `decodePolyline` of `WalkingMap`, over the character codes of the encoded
string, with `lat` and `lng` starting at zero. -/
def decodePolyline (encoded : List ℕ) : List (ℚ × ℚ) :=
  decodePolylineLoop encoded 0 0

/-- The zig-zag sign step of the standard Google polyline encoding: left
shift and invert for negative values. -/
def zigzagEncode (v : ℤ) : ℕ :=
  if 0 ≤ v then (2 * v).toNat else (2 * (-v) - 1).toNat

/-- The 5-bit little-endian chunking of the standard encoding: each chunk but
the last carries the `0x20` continuation bit, and 63 is added to every
chunk. -/
def encodeChunks (n : ℕ) : List ℕ :=
  if n < 32 then [n + 63]
  else (n % 32 + 32 + 63) :: encodeChunks (n / 32)
decreasing_by
  exact Nat.div_lt_self (by omega) (by omega)

/-- The standard encoding of one signed delta. -/
def encodeValue (v : ℤ) : List ℕ :=
  encodeChunks (zigzagEncode v)

/-- The standard Google polyline encoding of a list of points given as
1e5-scaled integer coordinates: successive deltas, zig-zag signed, chunked. -/
def encodePolylineLoop : List (ℤ × ℤ) → ℤ → ℤ → List ℕ
  | [], _, _ => []
  | (la, ln) :: rest, plat, plng =>
      encodeValue (la - plat) ++ encodeValue (ln - plng) ++ encodePolylineLoop rest la ln

/-- The standard Google polyline encoding, starting from the origin. -/
def encodePolyline (points : List (ℤ × ℤ)) : List ℕ :=
  encodePolylineLoop points 0 0

/-! ## QR session token lifetime (timed model)

`generateMobileQR` stores the issued token and schedules
`setTimeout(..., 10 * 60 * 1000)` whose callback clears the QR code and
token; the callback clears them unconditionally and timers are never
cancelled.  Receipt of a `desktop-location-update` or `hide-qr-code` event
clears them earlier.  Time is in milliseconds; the event-loop idealisation is
that time cannot advance past a pending timer deadline without the timer
firing. -/

/-- State of one desktop QR session: current time, displayed code, stored
token with its issuance time, and the deadlines of pending expiry timers. -/
structure QRSessionState where
  now : ℕ
  qrCode : String
  qrToken : String
  tokenIssuedAt : ℕ
  expiryTimers : List ℕ
deriving DecidableEq, Repr

/-- The initial QR session state. -/
def initialQRSessionState : QRSessionState where
  now := 0
  qrCode := ""
  qrToken := ""
  tokenIssuedAt := 0
  expiryTimers := []

/-- Events of the QR session flow: token issuance (stores code and token and
schedules a 10-minute expiry timer), an expiry timer firing at its deadline
(clears code and token unconditionally), receipt of a coordinate or of the
hide signal (clears code and token), and the passage of time, which cannot
skip a pending deadline. -/
inductive QRSessionStep : QRSessionState → QRSessionState → Prop
  | issue (s : QRSessionState) (img tok : String) (htok : tok ≠ "") :
      QRSessionStep s
        { s with qrCode := img, qrToken := tok, tokenIssuedAt := s.now,
                 expiryTimers := (s.now + 600000) :: s.expiryTimers }
  | expiryFire (s : QRSessionState) (d : ℕ) (hmem : d ∈ s.expiryTimers) (hdue : d ≤ s.now) :
      QRSessionStep s
        { s with qrCode := "", qrToken := "", expiryTimers := s.expiryTimers.erase d }
  | locationUpdate (s : QRSessionState) :
      QRSessionStep s { s with qrCode := "", qrToken := "" }
  | hideSignal (s : QRSessionState) :
      QRSessionStep s { s with qrCode := "", qrToken := "" }
  | advance (s : QRSessionState) (t : ℕ) (hle : s.now ≤ t)
      (htimers : ∀ d ∈ s.expiryTimers, t ≤ d) :
      QRSessionStep s { s with now := t }

/-- The states of the QR session flow reachable from the initial state. -/
inductive QRSessionReachable : QRSessionState → Prop
  | init : QRSessionReachable initialQRSessionState
  | step {s t : QRSessionState} (h : QRSessionReachable s) (hs : QRSessionStep s t) :
      QRSessionReachable t

/-! ## AIRecommendation: makeRecommendationRequest -/

/-- A `{latitude, longitude}` pair as used by the recommendation request. -/
structure GeoCoord where
  latitude : ℚ
  longitude : ℚ
deriving DecidableEq, Repr

/-- Outcome of the `/api/recommend-restaurant` request, had one been sent. -/
inductive RecommendResponse
  | ok (restaurant : String)
  | httpError (status : ℕ) (body : String)
  | networkError (msg : String)
deriving DecidableEq, Repr

/-- Substring occurrence over character lists: the pattern occurs at the
front or somewhere in the tail. -/
def occursIn (pat : List Char) : List Char → Bool
  | [] => pat.isEmpty
  | c :: rest => pat.isPrefixOf (c :: rest) || occursIn pat rest

/-- JavaScript `String.prototype.includes`: substring occurrence. -/
def jsIncludes (s pat : String) : Bool :=
  occursIn pat.toList s.toList

/-- The error message thrown by `makeRecommendationRequest` when neither a
stored profile location nor a current GPS fix is available. -/
def locationRequiredMessage : String :=
  "Location is required for restaurant recommendations. Please enable location access or scan the QR code with your phone."

/-- The error-message shaping in the catch branch of
`makeRecommendationRequest`. -/
def recommendationErrorText (msg : String) : String :=
  if jsIncludes msg "Failed to fetch" then
    "Cannot connect to server at the API base URL. Make sure backend is running on port 5000."
  else if jsIncludes msg "NetworkError" then "Network error: " ++ msg
  else msg

/-- Observable outcome of one `makeRecommendationRequest` run: the alert
shown to the user if any, the recommendation stored in component state if
any, and how many `/api/recommend-restaurant` requests were sent. -/
structure RecommendationOutcome where
  alertMessage : Option String
  recommendation : Option String
  requestsSent : ℕ
deriving DecidableEq, Repr

/-- `makeRecommendationRequest` of `AIRecommendation` as a function of its
location sources and of the server response: the stored profile location has
priority, then the current GPS fix; with neither, the function throws the
location-required error before any request is sent, and the catch branch
surfaces it in an alert with no recommendation stored. -/
def makeRecommendationRequest (storedLocation geoLocation : Option GeoCoord)
    (response : RecommendResponse) : RecommendationOutcome :=
  let userLocation := match storedLocation with
    | some c => some c
    | none => geoLocation
  match userLocation with
  | none =>
      { alertMessage := some ("Failed to get restaurant recommendation: "
          ++ recommendationErrorText locationRequiredMessage),
        recommendation := none,
        requestsSent := 0 }
  | some _ =>
      match response with
      | RecommendResponse.ok r =>
          { alertMessage := none, recommendation := some r, requestsSent := 1 }
      | RecommendResponse.httpError status body =>
          { alertMessage := some ("Failed to get restaurant recommendation: "
              ++ recommendationErrorText ("HTTP " ++ toString status ++ ": " ++ body)),
            recommendation := none, requestsSent := 1 }
      | RecommendResponse.networkError m =>
          { alertMessage := some ("Failed to get restaurant recommendation: "
              ++ recommendationErrorText m),
            recommendation := none, requestsSent := 1 }

/-! ## Theorems -/

/-- C1: for every QR session, when the realtime channel delivers either a
`desktop-location-update` event or a `hide-qr-code` event, the handler clears
the session token, clears the displayed QR code, and sets the user-interacted
and force-hide flags together in one synchronous update (a single function
application of the `flushSync` block), so no reachable state has some of
these cleared and others not. -/
theorem qr_events_clear_qr_state_atomically (s : HomeState) (data : LocationEventData) :
    ((onDesktopLocationUpdate s data).1.qrToken = "" ∧
      (onDesktopLocationUpdate s data).1.qrCode = "" ∧
      (onDesktopLocationUpdate s data).1.hasUserInteracted = true ∧
      (onDesktopLocationUpdate s data).1.forceHideQR = true) ∧
    ((onHideQrCode s).qrToken = "" ∧ (onHideQrCode s).qrCode = "" ∧
      (onHideQrCode s).hasUserInteracted = true ∧ (onHideQrCode s).forceHideQR = true) := by
  unfold onDesktopLocationUpdate onHideQrCode flushSyncHideQR
  cases extractCoords data <;> simp

/-- C3 (counterexample): the render conditional keys the QR prompt on the QR
code string, not on the session token.  The state reached by resolving the
user profile, completing one successful QR issuance, and then re-entering
`generateMobileQR` (its synchronous prefix clears the code but not the token)
renders the chat view, while the claim as stated (token present, no
interaction, no hide flag) demands the QR prompt. -/
theorem viewMode_token_claim_false :
    viewMode (generateMobileQRStart
        (generateMobileQR (fetchUserProfileSuccess initialHomeState "u1" "u1@example.com" "U One")
          (QRIssueResult.success "img1" "tok1")).1) = ViewMode.chat ∧
    viewModeTokenSpec (generateMobileQRStart
        (generateMobileQR (fetchUserProfileSuccess initialHomeState "u1" "u1@example.com" "U One")
          (QRIssueResult.success "img1" "tok1")).1) = ViewMode.qrPrompt := by
  decide

/-- C3 (amended): the view-mode selector is a function of the user identity,
the QR code string, the interaction flag and the force-hide flag: loading
exactly when identity is unresolved; the QR prompt exactly when identity is
resolved, the QR code string is nonempty, the user has not interacted and the
hide flag is unset; chat exactly when identity is resolved and any of: no QR
code, user interacted, or hide flag set. -/
theorem viewMode_characterization (s : HomeState) :
    (viewMode s = ViewMode.loading ↔ s.currentUserId = "") ∧
    (viewMode s = ViewMode.qrPrompt ↔
      (s.currentUserId ≠ "" ∧ s.qrCode ≠ "" ∧ s.hasUserInteracted = false ∧
        s.forceHideQR = false)) ∧
    (viewMode s = ViewMode.chat ↔
      (s.currentUserId ≠ "" ∧
        (s.qrCode = "" ∨ s.hasUserInteracted = true ∨ s.forceHideQR = true))) := by
  unfold viewMode
  split_ifs with h1 h2 <;> cases hu : s.hasUserInteracted <;> cases hf : s.forceHideQR <;>
    simp_all

/-- C4: every extractable coordinate received on the realtime channel
overwrites the stored mobile location immediately, with no sequence-number or
ordering check, so after any nonempty sequence of received coordinates the
holder reports exactly the most recently received one (last write wins). -/
theorem mobileLocation_last_write_wins (s : HomeState) (events : List LocationEventData)
    (hne : events ≠ []) (hall : ∀ d ∈ events, (extractCoords d).isSome) :
    (applyLocationUpdates s events).mobileLocation = extractCoords (events.getLast hne) := by
  induction events generalizing s with
  | nil => cases hne rfl
  | cons d rest ih =>
      cases rest with
      | nil =>
          have hd := hall d (by simp)
          cases hc : extractCoords d with
          | none => rw [hc] at hd; simp at hd
          | some c => simp [applyLocationUpdates, onDesktopLocationUpdate, hc]
      | cons e rest2 =>
          have h1 : applyLocationUpdates s (d :: e :: rest2)
              = applyLocationUpdates ((onDesktopLocationUpdate s d).1) (e :: rest2) := rfl
          rw [h1, ih _ (by simp) (fun x hx => hall x (List.mem_cons_of_mem _ hx))]
          simp [List.getLast_cons]

/-- C4 witness: two concrete coordinate events from the channel; the holder
reports the second. -/
theorem mobileLocation_last_write_wins_witness :
    (applyLocationUpdates initialHomeState
        [⟨some ⟨some 1, some 2, some 3⟩, none, none, none⟩,
         ⟨none, some 4, some 5, none⟩]).mobileLocation
      = extractCoords
          ([⟨some ⟨some 1, some 2, some 3⟩, none, none, none⟩,
            (⟨none, some 4, some 5, none⟩ : LocationEventData)].getLast (by simp)) :=
  mobileLocation_last_write_wins initialHomeState _ (by simp) (by decide)

/-- C6: a failed QR-token issuance request (non-2xx response or network
error, both of which reach the catch branch) clears the displayed QR code and
the stored session token, leaves the UI in chat mode, and sends exactly one
issuance request (no retry). -/
theorem qr_issue_failure_clears (s : HomeState)
    (h1 : s.processingLocationUpdate = false)
    (h2 : s.currentUserId ≠ "") (h3 : s.userEmail ≠ "") (h4 : s.userName ≠ "") :
    (generateMobileQR s QRIssueResult.failure).1.qrCode = "" ∧
    (generateMobileQR s QRIssueResult.failure).1.qrToken = "" ∧
    viewMode (generateMobileQR s QRIssueResult.failure).1 = ViewMode.chat ∧
    (generateMobileQR s QRIssueResult.failure).2 = 1 := by
  unfold generateMobileQR generateMobileQRStart viewMode
  simp [h1, h2, h3, h4]

/-- C6 witness: a concrete resolved user whose issuance request fails. -/
theorem qr_issue_failure_clears_witness :
    (generateMobileQR (fetchUserProfileSuccess initialHomeState "u" "e" "n")
        QRIssueResult.failure).1.qrCode = "" ∧
    (generateMobileQR (fetchUserProfileSuccess initialHomeState "u" "e" "n")
        QRIssueResult.failure).1.qrToken = "" ∧
    viewMode (generateMobileQR (fetchUserProfileSuccess initialHomeState "u" "e" "n")
        QRIssueResult.failure).1 = ViewMode.chat ∧
    (generateMobileQR (fetchUserProfileSuccess initialHomeState "u" "e" "n")
        QRIssueResult.failure).2 = 1 :=
  qr_issue_failure_clears _ (by decide) (by decide) (by decide) (by decide)

/-- C10: a `desktop-location-update` payload from which no coordinate can be
extracted still clears the QR code, token and visibility flags, but the
handler returns early: the stored mobile location is unchanged and no
restaurant search is triggered. -/
theorem unextractable_update_clears_qr_only (s : HomeState) (data : LocationEventData)
    (h : extractCoords data = none) :
    (onDesktopLocationUpdate s data).1.mobileLocation = s.mobileLocation ∧
    (onDesktopLocationUpdate s data).2 = none ∧
    (onDesktopLocationUpdate s data).1.qrCode = "" ∧
    (onDesktopLocationUpdate s data).1.qrToken = "" ∧
    (onDesktopLocationUpdate s data).1.hasUserInteracted = true ∧
    (onDesktopLocationUpdate s data).1.forceHideQR = true := by
  simp [onDesktopLocationUpdate, h, flushSyncHideQR]

/-- C10 witness: a payload with no coordinate fields, against a state holding
a previously received location. -/
theorem unextractable_update_clears_qr_only_witness :
    (onDesktopLocationUpdate { initialHomeState with mobileLocation := some ⟨1, 2, 3⟩ }
        ⟨none, none, none, none⟩).1.mobileLocation
      = ({ initialHomeState with mobileLocation := some ⟨1, 2, 3⟩ } : HomeState).mobileLocation ∧
    (onDesktopLocationUpdate { initialHomeState with mobileLocation := some ⟨1, 2, 3⟩ }
        ⟨none, none, none, none⟩).2 = none ∧
    (onDesktopLocationUpdate { initialHomeState with mobileLocation := some ⟨1, 2, 3⟩ }
        ⟨none, none, none, none⟩).1.qrCode = "" ∧
    (onDesktopLocationUpdate { initialHomeState with mobileLocation := some ⟨1, 2, 3⟩ }
        ⟨none, none, none, none⟩).1.qrToken = "" ∧
    (onDesktopLocationUpdate { initialHomeState with mobileLocation := some ⟨1, 2, 3⟩ }
        ⟨none, none, none, none⟩).1.hasUserInteracted = true ∧
    (onDesktopLocationUpdate { initialHomeState with mobileLocation := some ⟨1, 2, 3⟩ }
        ⟨none, none, none, none⟩).1.forceHideQR = true :=
  unextractable_update_clears_qr_only _ _ rfl

/-- Helper: one price toggle preserves duplicate-freeness and
non-emptiness. -/
theorem togglePriceLevel_preserves (levels : List ℕ) (l : ℕ)
    (hnd : levels.Nodup) (hne : levels ≠ []) :
    (togglePriceLevel levels l).Nodup ∧ togglePriceLevel levels l ≠ [] := by
  unfold togglePriceLevel
  by_cases hmem : l ∈ levels
  · simp only [hmem, if_true]
    by_cases hlen : levels.length > 1
    · simp only [hlen, if_true]
      refine ⟨hnd.filter _, ?_⟩
      cases levels with
      | nil => cases hne rfl
      | cons a rest =>
          cases rest with
          | nil => simp at hlen
          | cons b t =>
              have hab : a ≠ b := by
                intro hc
                exact (List.nodup_cons.mp hnd).1 (by rw [hc]; exact List.mem_cons_self b t)
              by_cases hal : a = l
              · have hbl : b ≠ l := fun hc => hab (hal.trans hc.symm)
                have : b ∈ (a :: b :: t).filter (fun p => p ≠ l) :=
                  List.mem_filter.mpr ⟨by simp, by simp [hbl]⟩
                exact List.ne_nil_of_mem this
              · have : a ∈ (a :: b :: t).filter (fun p => p ≠ l) :=
                  List.mem_filter.mpr ⟨by simp, by simp [hal]⟩
                exact List.ne_nil_of_mem this
    · simp only [hlen, if_false]
      exact ⟨List.nodup_singleton l, by simp⟩
  · simp only [hmem, if_false]
    have happ : (levels ++ [l]).Nodup := by
      simp [List.nodup_append, hnd, hmem]
    refine ⟨(List.mergeSort_perm (levels ++ [l]) _).symm.nodup happ, ?_⟩
    have hlen : ((levels ++ [l]).mergeSort (fun a b => a ≤ b)).length = levels.length + 1 := by
      simp
    intro hcontra
    rw [hcontra] at hlen
    simp at hlen

/-- C2: starting from a non-empty duplicate-free price-level set, a toggle
never empties the set: toggling a level not in the set adds it and the result
is sorted ascending; toggling a level present in a set of size greater than
one removes it; toggling the only remaining level is a no-op; and the set
stays non-empty after every toggle of any sequence. -/
theorem togglePriceLevel_never_empties (levels : List ℕ) (l : ℕ)
    (hnd : levels.Nodup) (hne : levels ≠ []) :
    togglePriceLevel levels l ≠ [] ∧
    (togglePriceLevel levels l).Nodup ∧
    (l ∉ levels →
      (togglePriceLevel levels l).Pairwise (fun a b => a ≤ b) ∧
      List.Perm (togglePriceLevel levels l) (levels ++ [l])) ∧
    (l ∈ levels → 1 < levels.length →
      togglePriceLevel levels l = levels.filter (fun p => p ≠ l)) ∧
    (levels = [l] → togglePriceLevel levels l = [l]) ∧
    (∀ ops : List ℕ, ops.foldl togglePriceLevel levels ≠ []) := by
  refine ⟨(togglePriceLevel_preserves levels l hnd hne).2,
          (togglePriceLevel_preserves levels l hnd hne).1, ?_, ?_, ?_, ?_⟩
  · intro hmem
    constructor
    · unfold togglePriceLevel
      simp only [hmem, if_false]
      refine List.Pairwise.imp ?imp (List.sorted_mergeSort ?trans ?total (levels ++ [l]))
      case imp => intro a b h; simpa using h
      case trans => intro a b c hab hbc; simp at hab hbc ⊢; omega
      case total => intro a b; simpa using Nat.le_total a b
    · unfold togglePriceLevel
      simp only [hmem, if_false]
      exact List.mergeSort_perm _ _
  · intro hmem hlen
    unfold togglePriceLevel
    simp [hmem, hlen]
  · intro hl
    subst hl
    unfold togglePriceLevel
    simp
  · intro ops
    have hfold : ∀ (ops : List ℕ) (lv : List ℕ), lv.Nodup → lv ≠ [] →
        (ops.foldl togglePriceLevel lv).Nodup ∧ ops.foldl togglePriceLevel lv ≠ [] := by
      intro ops
      induction ops with
      | nil => intro lv h1 h2; exact ⟨h1, h2⟩
      | cons o rest ih =>
          intro lv h1 h2
          have h := togglePriceLevel_preserves lv o h1 h2
          exact ih _ h.1 h.2
    exact (hfold ops levels hnd hne).2

/-- C2 witness: toggling the only selected level of the default set. -/
theorem togglePriceLevel_never_empties_witness :
    togglePriceLevel [2] 2 ≠ [] :=
  (togglePriceLevel_never_empties [2] 2 (by decide) (by decide)).1

/-- C8 (counterexample): applying the same filter object twice does not
produce two identical logged change records.  With the default state and the
update `{ maxDistance: 3 }`, the first record is `(maxDistance, 5, 3)` but
the second is `(maxDistance, 3, 3)` (its oldValue reads the already-updated
state), while the displayed state is unchanged by the second application. -/
theorem updateFilters_identical_records_false :
    (updateFilters (updateFilters ⟨[2], "any", 5, 4, 5⟩
        { maxDistance := some 3 }).1 { maxDistance := some 3 }).1
      = (updateFilters ⟨[2], "any", 5, 4, 5⟩ { maxDistance := some 3 }).1 ∧
    (updateFilters (updateFilters ⟨[2], "any", 5, 4, 5⟩
        { maxDistance := some 3 }).1 { maxDistance := some 3 }).2
      ≠ (updateFilters ⟨[2], "any", 5, 4, 5⟩ { maxDistance := some 3 }).2 := by
  decide

/-- C8 (amended): applying the filter-update operation twice with the same
filter object leaves the displayed filter state after the second application
equal to the state after the first, and every change record logged by the
second application has its old value equal to its new value (so the two logs
coincide only when the first application already changed nothing). -/
theorem updateFilters_idempotent_state (f : RestaurantFilters) (p : PartialFilters) :
    (updateFilters (updateFilters f p).1 p).1 = (updateFilters f p).1 ∧
    ∀ c ∈ (updateFilters (updateFilters f p).1 p).2, c.oldValue = c.newValue := by
  obtain ⟨pl, pc, pd, pmin, pmax⟩ := p
  constructor
  · cases pl <;> cases pc <;> cases pd <;> cases pmin <;> cases pmax <;>
      simp [updateFilters, mergeFilters]
  · cases pl <;> cases pc <;> cases pd <;> cases pmin <;> cases pmax <;>
      simp [updateFilters, mergeFilters, filterChangeDetails]

/-- C9: when neither a stored profile location nor a current GPS fix is
available (geolocation denied), the recommendation flow fails with the
explicit alert instructing the user to enable location access or scan the QR
code, stores no recommendation, and sends no recommendation request (so no
silent fallback recommendation can be produced). -/
theorem recommendation_requires_location (stored geo : Option GeoCoord)
    (resp : RecommendResponse) (hs : stored = none) (hg : geo = none) :
    (makeRecommendationRequest stored geo resp).alertMessage
        = some ("Failed to get restaurant recommendation: " ++ locationRequiredMessage) ∧
    (makeRecommendationRequest stored geo resp).recommendation = none ∧
    (makeRecommendationRequest stored geo resp).requestsSent = 0 := by
  subst hs hg
  have hmsg : recommendationErrorText locationRequiredMessage = locationRequiredMessage := by
    decide
  simp [makeRecommendationRequest, hmsg]

/-- C9 witness: no stored location and a denied geolocation request. -/
theorem recommendation_requires_location_witness :
    (makeRecommendationRequest none none (RecommendResponse.ok "r")).alertMessage
        = some ("Failed to get restaurant recommendation: " ++ locationRequiredMessage) ∧
    (makeRecommendationRequest none none (RecommendResponse.ok "r")).recommendation = none ∧
    (makeRecommendationRequest none none (RecommendResponse.ok "r")).requestsSent = 0 :=
  recommendation_requires_location none none (RecommendResponse.ok "r") rfl rfl

/-- Helper invariant for the QR session flow: whenever a token is present,
it was issued no later than now and some pending timer fires no later than
ten minutes after its issuance, with the clock not yet past that timer. -/
theorem qrSession_inv {s : QRSessionState} (h : QRSessionReachable s) :
    s.qrToken ≠ "" → s.tokenIssuedAt ≤ s.now ∧
      ∃ d ∈ s.expiryTimers, d ≤ s.tokenIssuedAt + 600000 ∧ s.now ≤ d := by
  induction h with
  | init => intro hc; exact absurd rfl hc
  | step hr hs ih =>
      rename_i s t
      cases hs with
      | issue img tok htok =>
          intro _
          exact ⟨le_rfl, s.now + 600000, List.mem_cons_self _ _, le_rfl, Nat.le_add_right _ _⟩
      | expiryFire d hmem hdue => intro hc; exact absurd rfl hc
      | locationUpdate => intro hc; exact absurd rfl hc
      | hideSignal => intro hc; exact absurd rfl hc
      | advance u hle htimers =>
          intro htok
          obtain ⟨h1, d, hd, hdle, hnl⟩ := ih htok
          exact ⟨le_trans h1 hle, d, hd, hdle, htimers d hd⟩

/-- C7: in every reachable state of the QR session flow, a present session
token is at most ten minutes (600000 ms) old: its own expiry timer cannot be
skipped by the clock, fires at most ten minutes after issuance, and clears
the code and token; a coordinate or hide event clears them earlier. -/
theorem qr_token_age_bounded (s : QRSessionState) (h : QRSessionReachable s)
    (htok : s.qrToken ≠ "") : s.now - s.tokenIssuedAt ≤ 600000 := by
  obtain ⟨h1, d, hd, hdle, hnl⟩ := qrSession_inv h htok
  omega

/-- C7 witness: the state just after one issuance at time zero. -/
theorem qr_token_age_bounded_witness :
    ({ now := 0, qrCode := "img", qrToken := "tok", tokenIssuedAt := 0,
        expiryTimers := [600000] } : QRSessionState).now
      - ({ now := 0, qrCode := "img", qrToken := "tok", tokenIssuedAt := 0,
            expiryTimers := [600000] } : QRSessionState).tokenIssuedAt ≤ 600000 := by
  apply qr_token_age_bounded
  · refine QRSessionReachable.step QRSessionReachable.init ?_
    have h := QRSessionStep.issue initialQRSessionState "img" "tok" (by decide)
    simpa [initialQRSessionState] using h
  · decide

/-- Helper: OR-ing a value shifted past the bits of a small accumulator is
addition, which is how the chunk loop of `decodePolyline` assembles 5-bit
groups. -/
theorem lor_shiftLeft_eq_add {x y s : ℕ} (h : x < 2 ^ s) :
    x ||| (y <<< s) = x + y * 2 ^ s := by
  apply Nat.eq_of_testBit_eq
  intro i
  have hrw : x + y * 2 ^ s = 2 ^ s * y + x := by ring
  rw [hrw, Nat.testBit_mul_pow_two_add y h i]
  simp only [Nat.testBit_or, Nat.testBit_shiftLeft]
  by_cases hi : i < s
  · have hns : ¬(s ≤ i) := by omega
    simp [hi, hns]
  · have hsi : s ≤ i := by omega
    have hx : x.testBit i = false :=
      Nat.testBit_lt_two_pow (lt_of_lt_of_le h (Nat.pow_le_pow_right (by omega) hsi))
    simp [hi, hsi, hx]

/-- Helper: the chunk parser of `decodePolyline` inverts the standard
5-bit-with-continuation-bit chunk encoding, relative to any accumulator that
fits below the current shift. -/
theorem parseChunk_encodeChunks (n : ℕ) (rest : List ℕ) (s r : ℕ) (hr : r < 2 ^ s) :
    parseChunk (encodeChunks n ++ rest) s r = (r + n * 2 ^ s, rest) := by
  induction n using Nat.strong_induction_on generalizing s r with
  | _ n ih =>
    rw [encodeChunks]
    by_cases hn : n < 32
    · simp only [hn, if_true, List.cons_append, List.nil_append, parseChunk]
      have hb : ((n + 63 : ℕ) : ℤ) - 63 = (n : ℤ) := by push_cast; ring
      rw [hb]
      have hcv : chunkValue (n : ℤ) = n := by unfold chunkValue; omega
      rw [hcv, if_neg (by omega : ¬(32 : ℤ) ≤ (n : ℤ))]
      rw [lor_shiftLeft_eq_add hr]
    · simp only [hn, if_false, List.cons_append, parseChunk]
      have hb : ((n % 32 + 32 + 63 : ℕ) : ℤ) - 63 = ((n % 32 : ℕ) : ℤ) + 32 := by
        push_cast; ring
      rw [hb]
      have hcv : chunkValue (((n % 32 : ℕ) : ℤ) + 32) = n % 32 := by
        unfold chunkValue; omega
      rw [hcv, if_pos (by omega : (32 : ℤ) ≤ ((n % 32 : ℕ) : ℤ) + 32)]
      rw [lor_shiftLeft_eq_add hr]
      have hdiv : n / 32 < n := Nat.div_lt_self (by omega) (by omega)
      have hpow : 2 ^ (s + 5) = 32 * 2 ^ s := by rw [pow_add]; ring
      have hr1 : r + n % 32 * 2 ^ s < 2 ^ (s + 5) := by
        have hm : n % 32 < 32 := Nat.mod_lt _ (by omega)
        have : r + n % 32 * 2 ^ s < 2 ^ s + 31 * 2 ^ s := by
          have := Nat.mul_le_mul_right (2 ^ s) (by omega : n % 32 ≤ 31)
          omega
        omega
      rw [ih (n / 32) hdiv (s + 5) (r + n % 32 * 2 ^ s) hr1]
      have hqm : 32 * (n / 32) + n % 32 = n := Nat.div_add_mod n 32
      have : r + n % 32 * 2 ^ s + n / 32 * 2 ^ (s + 5) = r + n * 2 ^ s := by
        rw [hpow]
        calc r + n % 32 * 2 ^ s + n / 32 * (32 * 2 ^ s)
            = r + (32 * (n / 32) + n % 32) * 2 ^ s := by ring
          _ = r + n * 2 ^ s := by rw [hqm]
      rw [this]

/-- Helper: the sign decoding of `decodePolyline` inverts the zig-zag sign
encoding. -/
theorem zigzag_decode_encode (v : ℤ) : zigzagDecode (zigzagEncode v) = v := by
  unfold zigzagDecode zigzagEncode
  simp only [Nat.and_one_is_mod, Nat.shiftRight_eq_div_pow, pow_one]
  split_ifs <;> omega

/-- Helper: the standard chunk encoding is never empty. -/
theorem encodeChunks_ne_nil (n : ℕ) : encodeChunks n ≠ [] := by
  rw [encodeChunks]
  split_ifs <;> simp

/-- Helper: unfolding of the decode loop on a nonempty input. -/
theorem decodePolylineLoop_ne_nil (cs : List ℕ) (hcs : cs ≠ []) (lat lng : ℤ) :
    decodePolylineLoop cs lat lng =
      (((lat + zigzagDecode (parseChunk cs 0 0).1 : ℤ) : ℚ) / 100000,
       ((lng + zigzagDecode (parseChunk (parseChunk cs 0 0).2 0 0).1 : ℤ) : ℚ) / 100000)
      :: decodePolylineLoop (parseChunk (parseChunk cs 0 0).2 0 0).2
           (lat + zigzagDecode (parseChunk cs 0 0).1)
           (lng + zigzagDecode (parseChunk (parseChunk cs 0 0).2 0 0).1) := by
  cases cs with
  | nil => cases hcs rfl
  | cons c rest => simp only [decodePolylineLoop]

/-- Helper: decoding the standard encoding of a point list, relative to any
common previous point, recovers the points scaled by 1e-5. -/
theorem decode_encode_loop (points : List (ℤ × ℤ)) (plat plng : ℤ) :
    decodePolylineLoop (encodePolylineLoop points plat plng) plat plng
      = points.map (fun p => ((p.1 : ℚ) / 100000, (p.2 : ℚ) / 100000)) := by
  induction points generalizing plat plng with
  | nil => simp [encodePolylineLoop, decodePolylineLoop]
  | cons p rest ih =>
      obtain ⟨la, ln⟩ := p
      simp only [encodePolylineLoop]
      rw [List.append_assoc]
      have h1 : parseChunk (encodeValue (la - plat)
            ++ (encodeValue (ln - plng) ++ encodePolylineLoop rest la ln)) 0 0
          = (zigzagEncode (la - plat),
             encodeValue (ln - plng) ++ encodePolylineLoop rest la ln) := by
        unfold encodeValue
        simpa using parseChunk_encodeChunks (zigzagEncode (la - plat)) _ 0 0 (by norm_num)
      have h2 : parseChunk (encodeValue (ln - plng) ++ encodePolylineLoop rest la ln) 0 0
          = (zigzagEncode (ln - plng), encodePolylineLoop rest la ln) := by
        unfold encodeValue
        simpa using parseChunk_encodeChunks (zigzagEncode (ln - plng)) _ 0 0 (by norm_num)
      have hne : encodeValue (la - plat)
          ++ (encodeValue (ln - plng) ++ encodePolylineLoop rest la ln) ≠ [] := by
        intro hc
        exact encodeChunks_ne_nil (zigzagEncode (la - plat)) (List.append_eq_nil.mp hc).1
      rw [decodePolylineLoop_ne_nil _ hne plat plng, h1]
      simp only [h2, zigzag_decode_encode]
      have hla : plat + (la - plat) = la := by ring
      have hln : plng + (ln - plng) = ln := by ring
      rw [hla, hln, ih la ln]
      simp

/-- C5: `decodePolyline` implements the inverse of the standard Google
polyline encoding (base-64-like variable-length chunks of five bits with a
continuation bit, zig-zag sign coding of successive deltas): decoding the
standard encoding of any list of 1e5-scaled integer coordinates recovers
exactly those coordinates divided by 1e5. -/
theorem decodePolyline_encodePolyline (points : List (ℤ × ℤ)) :
    decodePolyline (encodePolyline points)
      = points.map (fun p => ((p.1 : ℚ) / 100000, (p.2 : ℚ) / 100000)) :=
  decode_encode_loop points 0 0

end Foodle
